import Mathlib

/-!
Tamizaje admin panel: `api.js` and `cuestionario.js`.

A shallow embedding of the browser-side questionnaire panel.  JavaScript values
are the values `JSON.parse` can produce plus `undefined`; numbers are kept
abstract (`Num`) and every built-in of the browser the code calls is a field
of `Browser`.  Asynchronous handlers are run to completion one at a time; the
calls they make to `fetch`, `alert` and `confirm` are recorded in a trace.
-/

set_option autoImplicit false

namespace Tamizaje

/-! ## JavaScript values -/

/-- A JavaScript value as this program meets them: `undefined`, and whatever
`JSON.parse` returns.  Objects list their own properties in insertion order. -/
inductive JVal (Num : Type) where
  | undefined
  | null
  | bool (b : Bool)
  | num (n : Num)
  | str (s : String)
  | arr (xs : List (JVal Num))
  | obj (props : List (String × JVal Num))

/-- An exception value: every value thrown in this program is an `Error`
object, described by its `name` and `message`. -/
structure JSError where
  name : String
  message : String
  deriving DecidableEq, Repr

/-- What one `fetch` call settles to: a rejection, or a response with its
`ok` flag, its `statusText` and its body parsed as JSON (`none` when
`res.json()` rejects). -/
inductive FetchOutcome (Num : Type) where
  | rejected (e : JSError)
  | response (ok : Bool) (statusText : String) (body : Option (JVal Num))

/-- The built-ins and the outside world the scripts rely on. -/
structure Browser (Num : Type) where
  /-- Unary plus on a string, `+id`. -/
  toNumber : String → Num
  /-- The string of a number, as in a template literal. -/
  numToString : Num → String
  /-- Strict equality `===` of two numbers. -/
  numEq : Num → Num → Bool
  /-- Truthiness of a number (false for zero and NaN). -/
  numTruthy : Num → Bool
  /-- The text of `JSON.stringify(v)`. -/
  stringify : JVal Num → String
  /-- The text of `new Date(iso).toLocaleDateString()`, for a value `iso` the
  `Date` constructor accepts. -/
  toLocaleDateString : JVal Num → String
  /-- The upper-case mapping of one character, `toUpperCase`. -/
  upperChar : Char → List Char
  /-- The message of the TypeError raised at the named operation. -/
  typeErrorMessage : String → String
  /-- The settlement of the `fetch` call made as event number `n` of the trace. -/
  net : Nat → String → JVal Num → FetchOutcome Num
  /-- The answer of the user to the `confirm` shown as event number `n`. -/
  confirmAnswer : Nat → String → Bool

section Values

variable {Num : Type}

/-- The TypeError the browser raises at the operation `what`. -/
def typeError (B : Browser Num) (what : String) : JSError :=
  ⟨"TypeError", B.typeErrorMessage what⟩

/-- Truthiness of a value. -/
def truthy (B : Browser Num) : JVal Num → Bool
  | .undefined => false
  | .null => false
  | .bool b => b
  | .num n => B.numTruthy n
  | .str s => s != ""
  | .arr _ => true
  | .obj _ => true

/-- The own property `k` of a property list. -/
def lookup (k : String) : List (String × JVal Num) → Option (JVal Num)
  | [] => none
  | (k', v) :: rest => if k' = k then some v else lookup k rest

/-- Assignment of property `k`: an existing property keeps its place, a new
one goes last. -/
def setProp (k : String) (v : JVal Num) : List (String × JVal Num) → List (String × JVal Num)
  | [] => [(k, v)]
  | (k', v') :: rest => if k' = k then (k, v) :: rest else (k', v') :: setProp k v rest

/-- Object spread `{...target, ...src}`. -/
def spreadInto (target src : List (String × JVal Num)) : List (String × JVal Num) :=
  src.foldl (fun acc p => setProp p.1 p.2 acc) target

/-- Property read `v.k`, for the property names this program uses (none of
them is a built-in property of strings, numbers, booleans or arrays): a
TypeError on `null` and `undefined`, the own property of an object,
`undefined` elsewhere. -/
def getProp (B : Browser Num) (v : JVal Num) (k : String) : Except JSError (JVal Num) :=
  match v with
  | .undefined => .error (typeError B k)
  | .null => .error (typeError B k)
  | .obj ps => .ok ((lookup k ps).getD .undefined)
  | _ => .ok .undefined

/-- Optional chaining `v?.k`. -/
def getPropOpt (v : JVal Num) (k : String) : JVal Num :=
  match v with
  | .obj ps => (lookup k ps).getD .undefined
  | _ => .undefined

/-- The own enumerable properties copied by `...v`. -/
def ownProps : JVal Num → List (String × JVal Num)
  | .obj ps => ps
  | .arr xs => xs.enum.map (fun p => (toString p.1, p.2))
  | .str s => s.data.enum.map (fun p => (toString p.1, JVal.str (String.singleton p.2)))
  | _ => []

mutual
/-- String conversion of a value (template literals, `new Error`, DOM
setters).  An object holding an own `toString` property has no primitive
value and raises a TypeError; an array joins its elements with commas. -/
def toStr (B : Browser Num) : JVal Num → Except JSError String
  | .undefined => .ok "undefined"
  | .null => .ok "null"
  | .bool b => .ok (if b then "true" else "false")
  | .num n => .ok (B.numToString n)
  | .str s => .ok s
  | .arr xs => joinStr B xs
  | .obj ps =>
    match lookup "toString" ps with
    | some _ => .error (typeError B "toString")
    | none => .ok "[object Object]"
/-- The comma-separated join of array elements, `Array.prototype.join`. -/
def joinStr (B : Browser Num) : List (JVal Num) → Except JSError String
  | [] => .ok ""
  | x :: rest =>
    match (match x with
           | .undefined => Except.ok ""
           | .null => Except.ok ""
           | y => toStr B y) with
    | .error e => .error e
    | .ok s =>
      match rest with
      | [] => .ok s
      | _ => match joinStr B rest with
             | .error e => .error e
             | .ok t => .ok (s ++ "," ++ t)
end

end Values

/-! ## Strings -/

/-- The worker of `split`: `skip` counts the characters of a separator just
matched that are still to be passed over, `acc` holds the current piece in
reverse. -/
def splitGo (sep : List Char) : List Char → Nat → List Char → List (List Char)
  | [], _, acc => [acc.reverse]
  | _ :: cs, k + 1, acc => splitGo sep cs k acc
  | c :: cs, 0, acc =>
    if sep.isPrefixOf (c :: cs) then acc.reverse :: splitGo sep cs (sep.length - 1) []
    else splitGo sep cs 0 (c :: acc)

/-- The pieces of `s.split(sep)` for a non-empty separator `sep`. -/
def jsSplit (s sep : String) : List String :=
  (splitGo sep.data s.data 0 []).map String.mk

/-- White space and line terminators, the characters `trim` removes. -/
def isJsSpace (c : Char) : Bool :=
  let n := c.toNat
  n == 0x09 || n == 0x0A || n == 0x0B || n == 0x0C || n == 0x0D || n == 0x20 ||
  n == 0xA0 || n == 0x1680 || (0x2000 ≤ n && n ≤ 0x200A) || n == 0x2028 ||
  n == 0x2029 || n == 0x202F || n == 0x205F || n == 0x3000 || n == 0xFEFF

/-- The string method `trim`. -/
def jsTrim (s : String) : String :=
  String.mk ((s.data.dropWhile isJsSpace).reverse.dropWhile isJsSpace).reverse

/-- The string method `toUpperCase`, character by character. -/
def toUpperCase {Num : Type} (B : Browser Num) (s : String) : String :=
  String.mk (s.data.flatMap B.upperChar)

/-! ## api.js -/

/-- The function `getCookie(name)` on the text of `document.cookie`;
`none` is `undefined`. -/
def getCookie (cookie name : String) : Option String :=
  let v := jsSplit ("; " ++ cookie) ("; " ++ name ++ "=")
  if v.length = 2 then (jsSplit (v.getLast?.getD "") ";").head? else none

section Program

variable {Num : Type}

/-- The arrow function `CSRF`; `undefined` when there is no such cookie. -/
def CSRF (cookie : String) : JVal Num :=
  match getCookie cookie "csrftoken" with
  | some t => .str t
  | none => .undefined

/-- The object `opts` that `api(url, options)` hands to `fetch`, with the
parameter destructuring `{method='GET', json, headers={}, ...rest}`. -/
def buildOpts (B : Browser Num) (cookie : String) (options : List (String × JVal Num)) :
    JVal Num :=
  let method : JVal Num :=
    match lookup "method" options with
    | none => .str "GET"
    | some .undefined => .str "GET"
    | some v => v
  let json : JVal Num := (lookup "json" options).getD .undefined
  let headers : JVal Num :=
    match lookup "headers" options with
    | none => .obj []
    | some .undefined => .obj []
    | some v => v
  let rest := options.filter
    (fun p => !(p.1 == "method" || p.1 == "json" || p.1 == "headers"))
  let hdrs :=
    spreadInto
      (spreadInto [("X-CSRFToken", CSRF cookie)]
        (if truthy B json then [("Content-Type", .str "application/json")] else []))
      (ownProps headers)
  .obj (spreadInto
    (spreadInto
      [("method", method), ("credentials", .str "same-origin"), ("headers", .obj hdrs)]
      (if truthy B json then [("body", .str (B.stringify json))] else []))
    rest)

/-- Whether `v === false`. -/
def isFalse : JVal Num → Bool
  | .bool false => true
  | _ => false

/-- The tail of `api` once `fetch` has settled: parse the body, throw on a bad
status or an `ok: false`, return the data otherwise. -/
def apiFinish (B : Browser Num) : FetchOutcome Num → Except JSError (JVal Num)
  | .rejected e => .error e
  | .response ok statusText body =>
    let data : JVal Num := body.getD (.obj [])
    match (if !ok then Except.ok true
           else match getProp B data "ok" with
                | .error e => Except.error e
                | .ok v => Except.ok (isFalse v)) with
    | .error e => .error e
    | .ok false => .ok data
    | .ok true =>
      match getProp B data "error" with
      | .error e => .error e
      | .ok err =>
        let msg : JVal Num :=
          if truthy B err then err
          else
            let errors := getPropOpt data "errors"
            let s := B.stringify (if truthy B errors then errors else data)
            if s != "" then .str s else .str statusText
        match toStr B msg with
        | .error e => .error e
        | .ok m => .error ⟨"Error", m⟩

/-! ## The page -/

/-- One control of the form `formCuest`, with its value as text; a name
belongs to at most one control. -/
structure Control where
  name : String
  value : String
  defaultValue : String
  disabled : Bool
  deriving DecidableEq, Repr

/-- The dialog `dlgNuevoCuest`: whether it is shown, and the text of its `h4`
heading when it has one. -/
structure Dialog where
  isOpen : Bool
  title : Option String
  deriving DecidableEq, Repr

/-- A call that reaches outside the script. -/
inductive Event (Num : Type) where
  | fetch (url : String) (opts : JVal Num)
  | alert (msg : String)
  | confirm (msg : String) (answer : Bool)

/-- The state of the page: the cookie text, the module variables
`cuestionarios` and `editId`, the rows of `#tablaCuestionarios tbody` (when it
exists; a row is the text assigned to its `innerHTML`) with whether its click
handler is installed, the dialog and the form (when they exist), and the trace
of outside calls so far.  The cookie text is read at every request and no
statement of the scripts writes it. -/
structure St (Num : Type) where
  cookie : String
  cuestionarios : JVal Num
  editId : Option Num
  tbody : Option (List String)
  onclick : Bool
  dlg : Option Dialog
  form : Option (List Control)
  trace : List (Event Num)

/-- A computation on the page that may throw. -/
abbrev Eff (Num : Type) (α : Type) := St Num → Except JSError α × St Num

/-- The sequence `const a = await first; rest`: `rest` runs on the value of
`first` unless `first` threw. -/
def andThen {α β : Type} (first : Eff Num α) (rest : α → Eff Num β) : Eff Num β := fun st =>
  match first st with
  | (.error e, st1) => (.error e, st1)
  | (.ok a, st1) => rest a st1

/-- The function `api(url, options)`: one `fetch`, then `apiFinish`. -/
def api (B : Browser Num) (url : String) (options : List (String × JVal Num)) :
    Eff Num (JVal Num) := fun st =>
  let opts := buildOpts B st.cookie options
  (apiFinish B (B.net st.trace.length url opts),
   { st with trace := st.trace ++ [Event.fetch url opts] })

/-! ## cuestionario.js -/

/-- The constant `CAT_BASE`. -/
def CAT_BASE : String := "/dashboard/admin/catalogo/"

/-- The constant `API_LIST`. -/
def API_LIST : String := CAT_BASE ++ "api/cuestionarios/"

/-- The arrow function `API_ITEM`. -/
def API_ITEM (B : Browser Num) (id : Num) : String :=
  CAT_BASE ++ ("api/cuestionarios/" ++ B.numToString id ++ "/")

/-- The arrow function `API_DUP`. -/
def API_DUP (B : Browser Num) (id : Num) : String :=
  CAT_BASE ++ ("api/cuestionarios/" ++ B.numToString id ++ "/duplicar/")

/-- Whether `v === 'published'`. -/
def isPublished : JVal Num → Bool
  | .str s => s == "published"
  | _ => false

/-- The function `chipPub(estado, activo)`. -/
def chipPub (B : Browser Num) (estado activo : JVal Num) : String :=
  if isPublished estado && truthy B activo then
    "<span class=\"badge-soft badge-ok\">Publicado</span>"
  else if isPublished estado && !truthy B activo then
    "<span class=\"badge-soft badge-warn\">Publicado (inactivo)</span>"
  else "<span class=\"badge-soft\">Borrador</span>"

/-- The function `fmtFecha(iso)`.  `new Date(iso)` first takes the primitive
value of `iso`, which throws a TypeError exactly where its string conversion
does (an object with an own `toString` property, or an array holding one);
`toLocaleDateString` itself does not throw, an invalid date giving
`Invalid Date`. -/
def fmtFecha (B : Browser Num) (iso : JVal Num) : Except JSError String :=
  if truthy B iso then
    match toStr B iso with
    | .error e => .error e
    | .ok _ => .ok (B.toLocaleDateString iso)
  else .ok "—"

/-- The operand `v ?? d` turned into text, `d` being already text. -/
def orElseStr (B : Browser Num) (v : JVal Num) (d : String) : Except JSError String :=
  match v with
  | .undefined => .ok d
  | .null => .ok d
  | w => toStr B w

/-- The template literal assigned to `tr.innerHTML` for the element `c`. -/
def rowHtml (B : Browser Num) (c : JVal Num) : Except JSError String := do
  let codigo ← orElseStr B (← getProp B c "codigo") ""
  let nombre ← orElseStr B (← getProp B c "nombre") ""
  let version ← orElseStr B (← getProp B c "version") ""
  let chip := chipPub B (← getProp B c "estado") (← getProp B c "activo")
  let items ← orElseStr B (← getProp B c "items") "0"
  let fecha ← fmtFecha B (← getProp B c "updated")
  let id ← toStr B (← getProp B c "id")
  let caption := if isPublished (← getProp B c "estado") then "Despublicar" else "Publicar"
  pure ("\n      <td>" ++ codigo ++ "</td>\n      <td>" ++ nombre ++
    "</td>\n      <td>" ++ version ++ "</td>\n      <td>" ++ chip ++
    "</td>\n      <td>" ++ items ++ "</td>\n      <td>" ++ fecha ++
    "</td>\n      <td class=\"actions\">\n        " ++
    "<button class=\"btn btn-sm btn-outline-primary\" data-edit=\"" ++ id ++
    "\">Editar</button>\n        " ++
    "<button class=\"btn btn-sm btn-outline-secondary\" data-pub=\"" ++ id ++
    "\">\n          " ++ caption ++ "\n        </button>\n        " ++
    "<button class=\"btn btn-sm btn-outline-secondary\" data-dup=\"" ++ id ++
    "\">Duplicar</button>\n        " ++
    "<button class=\"btn btn-sm btn-outline-danger\" data-del=\"" ++ id ++
    "\">Eliminar</button>\n        " ++
    "<a class=\"btn btn-sm\" href=\"" ++ CAT_BASE ++ "cuestionarios/" ++ id ++
    "/editar/?step=preguntas\">Editar preguntas</a>\n      </td>")

/-- The loop `cuestionarios.forEach(c => ... tb.appendChild(tr))`: the rows of
the body after it, and the exception that stopped it, if any. -/
def appendRows (B : Browser Num) : List (JVal Num) → List String → List String × Option JSError
  | [], rows => (rows, none)
  | c :: cs, rows =>
    match rowHtml B c with
    | .error e => (rows, some e)
    | .ok r => appendRows B cs (rows ++ [r])

/-- The function `renderCuestionarios()`. -/
def renderCuestionarios (B : Browser Num) : Eff Num Unit := fun st =>
  match st.tbody with
  | none => (.ok (), st)
  | some _ =>
    match st.cuestionarios with
    | .arr xs =>
      match appendRows B xs [] with
      | (rows, some e) => (.error e, { st with tbody := some rows })
      | (rows, none) => (.ok (), { st with tbody := some rows, onclick := true })
    | _ => (.error (typeError B "forEach"), { st with tbody := some [] })

/-- The function `loadCuestionarios()`. -/
def loadCuestionarios (B : Browser Num) : Eff Num Unit :=
  andThen (api B API_LIST []) (fun out st1 =>
    let r := getPropOpt out "results"
    let results := if truthy B r then r else .arr []
    renderCuestionarios B { st1 with cuestionarios := results })

/-- The `data-*` attributes of the element `e.target.closest('button, a')`. -/
structure Dataset where
  edit : Option String
  pub : Option String
  dup : Option String
  del : Option String
  deriving DecidableEq, Repr

/-- Truthiness of a string that may be `undefined`. -/
def strTruthy : Option String → Bool
  | some s => s != ""
  | none => false

/-- The operand `a || b` on strings that may be `undefined`. -/
def orStr (a b : Option String) : Option String :=
  if strTruthy a then a else b

/-- The text an `Error` object converts to, `String(err)`. -/
def errorToString (e : JSError) : String :=
  if e.name = "" then e.message
  else if e.message = "" then e.name
  else e.name ++ ": " ++ e.message

/-- The argument of `alert` in the `catch` blocks, `err?.message || String(err)`. -/
def alertText (e : JSError) : String :=
  if e.message != "" then e.message else errorToString e

/-- The statement `try { body } catch(err) { alert(err?.message || String(err)) }`. -/
def tryAlert (body : Eff Num Unit) : Eff Num Unit := fun st =>
  match body st with
  | (.ok u, st1) => (.ok u, st1)
  | (.error e, st1) => (.ok (), { st1 with trace := st1.trace ++ [Event.alert (alertText e)] })

/-- Assignment to `form[name].value`: a TypeError when the form has no such
control. -/
def setControl (B : Browser Num) (name value : String) :
    List Control → Except JSError (List Control)
  | [] => .error (typeError B name)
  | c :: cs =>
    if c.name = name then .ok ({ c with value := value } :: cs)
    else match setControl B name value cs with
         | .error e => .error e
         | .ok cs1 => .ok (c :: cs1)

/-- Whether `form[name]` is a control. -/
def hasControl (name : String) (cs : List Control) : Bool :=
  cs.any (fun c => c.name == name)

/-- The call `form[name].setAttribute('disabled','disabled')`. -/
def disableControl (name : String) (cs : List Control) : List Control :=
  cs.map (fun c => if c.name = name then { c with disabled := true } else c)

/-- The operand `v || d` turned into text, `d` being already text. -/
def orDefaultStr (B : Browser Num) (v : JVal Num) (d : String) : Except JSError String :=
  if truthy B v then toStr B v else .ok d

/-- One assignment `form[name].value = v`, `text` being the conversion of `v`
to a string by the setter: a TypeError when the form has no such control, the
exception of the conversion when it throws; the form is then left as it was. -/
def assignControl (B : Browser Num) (name : String) (text : Except JSError String)
    (form : List Control) : Option JSError × List Control :=
  if !hasControl name form then (some (typeError B name), form)
  else
    match text with
    | .error e => (some e, form)
    | .ok t =>
      match setControl B name t form with
      | .error e => (some e, form)
      | .ok form1 => (none, form1)

/-- Statement sequencing on the form: `second` runs unless `first` threw. -/
def thenForm (first second : List Control → Option JSError × List Control)
    (form : List Control) : Option JSError × List Control :=
  match first form with
  | (some e, form1) => (some e, form1)
  | (none, form1) => second form1

/-- The statements of `openEdit` that fill the form from the item `c`, which
is neither `null` nor `undefined`: the exception that stopped them, if any,
and the form as they left it. -/
def fillForm (B : Browser Num) (c : JVal Num) : List Control → Option JSError × List Control :=
  thenForm (assignControl B "codigo" (orDefaultStr B (getPropOpt c "codigo") ""))
  (thenForm (assignControl B "nombre" (orDefaultStr B (getPropOpt c "nombre") ""))
  (thenForm (assignControl B "version" (orDefaultStr B (getPropOpt c "version") ""))
  (thenForm
    (fun form =>
      if hasControl "estado" form then
        assignControl B "estado" (orDefaultStr B (getPropOpt c "estado") "draft") form
      else (none, form))
  (thenForm
    (fun form =>
      if hasControl "algoritmo" form then
        assignControl B "algoritmo" (orDefaultStr B (getPropOpt c "algoritmo") "SUM") form
      else (none, form))
    (fun form =>
      if hasControl "items" form then
        thenForm (assignControl B "items" (orElseStr B (getPropOpt c "items") ""))
          (fun form1 => (none, disableControl "items" form1)) form
      else (none, form))))))

/-- The last two statements of `openEdit` and of the handler of
`openNuevoCuest`: set the heading of the dialog and show it with `showModal`,
which the script is the only one to call. -/
def showDialog (B : Browser Num) (title : String) (dlg : Option Dialog) :
    Except JSError Dialog :=
  match dlg with
  | none => .error (typeError B "querySelector")
  | some d =>
    match d.title with
    | none => .error (typeError B "textContent")
    | some _ => .ok { isOpen := true, title := some title }

/-- The statements of `openEdit` that follow the request, `out` being the
value `api` resolved to. -/
def showItem (B : Browser Num) (out : JVal Num) : Eff Num Unit := fun st1 =>
  let item := getPropOpt out "item"
  let c := if truthy B item then item else out
  match st1.form with
  | none => (.error (typeError B "codigo"), st1)
  | some form =>
    match fillForm B c form with
    | (some e, form1) => (.error e, { st1 with form := some form1 })
    | (none, form1) =>
      let st2 := { st1 with form := some form1 }
      match showDialog B "Editar cuestionario" st2.dlg with
      | .error e => (.error e, st2)
      | .ok d => (.ok (), { st2 with dlg := some d })

/-- The function `openEdit(id)`. -/
def openEdit (B : Browser Num) (id : Num) : Eff Num Unit := fun st =>
  andThen (api B (API_ITEM B id) []) (showItem B) { st with editId := some id }

/-- The search `cuestionarios.find(x => x.id === +id)`; `undefined` when no
element matches. -/
def findRow (B : Browser Num) (id : Num) : List (JVal Num) → Except JSError (JVal Num)
  | [] => .ok .undefined
  | x :: xs =>
    match getProp B x "id" with
    | .error e => .error e
    | .ok (.num m) => if B.numEq m id then .ok x else findRow B id xs
    | .ok _ => findRow B id xs

/-- The object literal sent by the publish button. -/
def pubPayload (next : String) : JVal Num :=
  .obj [("estado", .str next), ("activo", .bool (next == "published"))]

/-- The state `next` the publish button asks for, given the `row` found. -/
def nextEstado (B : Browser Num) (row : JVal Num) : String :=
  if truthy B row && isPublished (getPropOpt row "estado") then "draft" else "published"

/-- The branch `btn.dataset.pub` of the click handler. -/
def pubAction (B : Browser Num) (id : Num) : Eff Num Unit :=
  andThen
    (fun st =>
      ((match st.cuestionarios with
        | .arr xs => findRow B id xs
        | _ => .error (typeError B "find")), st))
    (fun row =>
      andThen
        (api B (API_ITEM B id)
          [("method", .str "PATCH"), ("json", pubPayload (nextEstado B row))])
        (fun _ => loadCuestionarios B))

/-- The branch `btn.dataset.dup` of the click handler. -/
def dupAction (B : Browser Num) (id : Num) : Eff Num Unit :=
  andThen (api B (API_DUP B id) [("method", .str "POST")]) (fun _ => loadCuestionarios B)

/-- The text of the confirmation shown before a deletion. -/
def confirmText : String := "¿Eliminar cuestionario?"

/-- The call `confirm(text)`. -/
def askConfirm (B : Browser Num) (text : String) : Eff Num Bool := fun st =>
  let answer := B.confirmAnswer st.trace.length text
  (.ok answer, { st with trace := st.trace ++ [Event.confirm text answer] })

/-- The branch `btn.dataset.del` of the click handler. -/
def delAction (B : Browser Num) (id : Num) : Eff Num Unit :=
  andThen (askConfirm B confirmText) (fun answer =>
    if answer then
      andThen (api B (API_ITEM B id) [("method", .str "DELETE")])
        (fun _ => loadCuestionarios B)
    else fun st => (.ok (), st))

/-- The handler `tb.onclick`; `target` is the dataset of
`e.target.closest('button, a')`, `none` when the click hit no button or link. -/
def onclick (B : Browser Num) (target : Option Dataset) : Eff Num Unit := fun st =>
  match target with
  | none => (.ok (), st)
  | some btn =>
    match orStr (orStr (orStr btn.edit btn.pub) btn.dup) btn.del with
    | none => (.ok (), st)
    | some id =>
      if id == "" then (.ok (), st)
      else
        tryAlert
          (if strTruthy btn.edit then openEdit B (B.toNumber id)
           else if strTruthy btn.pub then pubAction B (B.toNumber id)
           else if strTruthy btn.dup then dupAction B (B.toNumber id)
           else if strTruthy btn.del then delAction B (B.toNumber id)
           else fun s => (.ok (), s))
          st

/-- The entries of `new FormData(form)`: name and value of every control that
is not disabled, in document order. -/
def formData (form : List Control) : List (String × String) :=
  (form.filter (fun c => !c.disabled)).map (fun c => (c.name, c.value))

/-- The property `f[k]` of `Object.fromEntries(entries)`: the value of the last
entry named `k`, `none` (that is `undefined`) when there is none. -/
def fromEntries (entries : List (String × String)) (k : String) : Option String :=
  (entries.reverse.find? (fun p => p.1 == k)).map (fun p => p.2)

/-- The operand `a || d` for a string `a` that may be `undefined`. -/
def orText (a : Option String) (d : String) : String :=
  match a with
  | some s => if s != "" then s else d
  | none => d

/-- The object literal `payload` of the save handler. -/
def savePayload (B : Browser Num) (f : String → Option String) : JVal Num :=
  .obj [("codigo", .str (toUpperCase B (jsTrim (orText (f "codigo") "")))),
        ("nombre", .str (jsTrim (orText (f "nombre") ""))),
        ("version", .str (jsTrim (orText (f "version") "1.0"))),
        ("estado", .str (orText (f "estado") "draft")),
        ("descripcion", .str (orText (f "descripcion") "")),
        ("activo", .bool (f "estado" == some "published")),
        ("algoritmo", .str (orText (f "algoritmo") "SUM"))]

/-- The text of the alert shown when code or name is missing. -/
def requiredText : String := "Código y nombre son obligatorios"

/-- The call `dlg.close()`. -/
def closeDialog (B : Browser Num) : Eff Num Unit := fun st =>
  match st.dlg with
  | none => (.error (typeError B "close"), st)
  | some d => (.ok (), { st with dlg := some { d with isOpen := false } })

/-- The `try` block of the save handler. -/
def saveRequest (B : Browser Num) (payload : JVal Num) : Eff Num Unit :=
  andThen
    (fun st =>
      match st.editId with
      | some n =>
        if B.numTruthy n then
          api B (API_ITEM B n) [("method", .str "PATCH"), ("json", payload)] st
        else api B API_LIST [("method", .str "POST"), ("json", payload)] st
      | none => api B API_LIST [("method", .str "POST"), ("json", payload)] st)
    (fun _ => andThen (closeDialog B) (fun _ => loadCuestionarios B))

/-- The click handler of `btnGuardarCuest` installed by `attachModalHandlers`. -/
def saveHandler (B : Browser Num) : Eff Num Unit := fun st =>
  match st.form with
  | none => (.error (typeError B "FormData"), st)
  | some form =>
    let f := fromEntries (formData form)
    if !strTruthy (f "codigo") || !strTruthy (f "nombre") then
      (.ok (), { st with trace := st.trace ++ [Event.alert requiredText] })
    else tryAlert (saveRequest B (savePayload B f)) st

/-- The click handler of `openNuevoCuest` installed by `attachModalHandlers`. -/
def openNuevoHandler (B : Browser Num) : Eff Num Unit := fun st =>
  let st0 := { st with editId := none }
  match st0.form with
  | none => (.error (typeError B "reset"), st0)
  | some form =>
    let form1 := form.map (fun c => { c with value := c.defaultValue })
    let form2 := if hasControl "items" form1 then disableControl "items" form1 else form1
    let st1 := { st0 with form := some form2 }
    match showDialog B "Nuevo cuestionario" st1.dlg with
    | .error e => (.error e, st1)
    | .ok d => (.ok (), { st1 with dlg := some d })

end Program

/-! ## Example pages -/

section Examples

mutual
/-- JSON text of a value of the examples, whose strings need no escaping. -/
def exJson : JVal (Option Nat) → String
  | .undefined => "null"
  | .null => "null"
  | .bool b => if b then "true" else "false"
  | .num (some n) => toString n
  | .num none => "null"
  | .str s => "\"" ++ s ++ "\""
  | .arr xs => "[" ++ exJsonItems xs ++ "]"
  | .obj ps => "\x7b" ++ exJsonProps ps ++ "\x7d"
/-- The elements of an array, separated by commas. -/
def exJsonItems : List (JVal (Option Nat)) → String
  | [] => ""
  | [x] => exJson x
  | x :: y :: rest => exJson x ++ "," ++ exJsonItems (y :: rest)
/-- The properties of an object, separated by commas. -/
def exJsonProps : List (String × JVal (Option Nat)) → String
  | [] => ""
  | [(k, v)] => "\"" ++ k ++ "\":" ++ exJson v
  | (k, v) :: q :: rest => "\"" ++ k ++ "\":" ++ exJson v ++ "," ++ exJsonProps (q :: rest)
end

/-- The number a string of decimal digits stands for, NaN (`none`) for any
other string. -/
def exToNumber (s : String) : Option Nat :=
  if s.data.all Char.isDigit && !s.data.isEmpty then
    some (s.data.foldl (fun n c => 10 * n + (c.toNat - 48)) 0)
  else none

/-- A browser for the examples: its numbers are the naturals and NaN, its
network and its user answer as given. -/
def exBrowser (net : Nat → String → JVal (Option Nat) → FetchOutcome (Option Nat))
    (answer : Bool) : Browser (Option Nat) where
  toNumber := exToNumber
  numToString := fun n => match n with
    | some k => toString k
    | none => "NaN"
  numEq := fun a b => match a, b with
    | some x, some y => x == y
    | _, _ => false
  numTruthy := fun n => match n with
    | some k => k != 0
    | none => false
  stringify := exJson
  toLocaleDateString := fun v => match v with
    | .str s => s
    | _ => "Invalid Date"
  upperChar := fun c => [c.toUpper]
  typeErrorMessage := fun what => "Cannot read properties (" ++ what ++ ")"
  net := net
  confirmAnswer := fun _ _ => answer

/-- A questionnaire as the list endpoint returns it. -/
def exItem : JVal (Option Nat) :=
  .obj [("id", .num (some 7)), ("codigo", .str "PHQ9"), ("nombre", .str "Salud"),
        ("version", .str "1.0"), ("estado", .str "published"), ("activo", .bool true),
        ("items", .num (some 9))]

/-- A network that answers every request with the list holding `exItem`. -/
def exNetList : Nat → String → JVal (Option Nat) → FetchOutcome (Option Nat) :=
  fun _ _ _ => .response true "OK" (some (.obj [("ok", .bool true), ("results", .arr [exItem])]))

/-- A network that answers every request with a list holding `null`. -/
def exNetNull : Nat → String → JVal (Option Nat) → FetchOutcome (Option Nat) :=
  fun _ _ _ => .response true "OK" (some (.obj [("ok", .bool true), ("results", .arr [.null])]))

/-- A network that is down. -/
def exNetDown : Nat → String → JVal (Option Nat) → FetchOutcome (Option Nat) :=
  fun _ _ _ => .rejected ⟨"TypeError", "Failed to fetch"⟩

/-- A network that is down and says nothing about it: the rejection has an
empty message. -/
def exNetSilent : Nat → String → JVal (Option Nat) → FetchOutcome (Option Nat) :=
  fun _ _ _ => .rejected ⟨"TypeError", ""⟩

/-- A questionnaire whose `updated` field has no primitive value. -/
def exItemBadDate : JVal (Option Nat) :=
  .obj [("id", .num (some 7)), ("codigo", .str "PHQ9"),
        ("updated", .obj [("toString", .num (some 1))])]

/-- A network that refuses every request with status 403 and an error text. -/
def exNetForbidden : Nat → String → JVal (Option Nat) → FetchOutcome (Option Nat) :=
  fun _ _ _ => .response false "Forbidden" (some (.obj [("ok", .bool false), ("error", .str "No autorizado")]))

/-- A page with one stale row in the table, a closed dialog and the form
filled with the given code and name. -/
def exPage (codigo nombre : String) : St (Option Nat) where
  cookie := "sessionid=abc; csrftoken=tok123"
  cuestionarios := .arr [exItem]
  editId := none
  tbody := some ["<td>stale</td>"]
  onclick := true
  dlg := some ⟨false, some "Nuevo cuestionario"⟩
  form := some [⟨"codigo", codigo, "", false⟩, ⟨"nombre", nombre, "", false⟩,
                ⟨"estado", "published", "draft", false⟩]
  trace := []

/-- Options of a call that sets a header of its own. -/
def exOptions : List (String × JVal (Option Nat)) :=
  [("method", .str "POST"), ("headers", .obj [("Accept", .str "application/json")])]

/-- The page of the examples for any kind of number: a form holding the code
`codigo` and the name `nombre`, nothing else. -/
def formPage {Num : Type} (codigo nombre : String) : St Num where
  cookie := ""
  cuestionarios := .arr []
  editId := none
  tbody := none
  onclick := false
  dlg := none
  form := some [⟨"codigo", codigo, "", false⟩, ⟨"nombre", nombre, "", false⟩]
  trace := []

end Examples

/-! ## Properties of objects -/

section ObjectLemmas

variable {Num : Type}

theorem lookup_setProp_ne (k k' : String) (v : JVal Num) (ps : List (String × JVal Num))
    (h : k' ≠ k) : lookup k (setProp k' v ps) = lookup k ps := by
  induction ps with
  | nil => simp [setProp, lookup, h]
  | cons p ps ih =>
    obtain ⟨a, b⟩ := p
    by_cases ha : a = k'
    · subst ha
      simp [setProp, lookup, h]
    · by_cases hk : a = k
      · subst hk
        simp [setProp, lookup, ha]
      · simp [setProp, lookup, ha, hk, ih]

theorem lookup_spreadInto_none (k : String) (src : List (String × JVal Num)) :
    ∀ target : List (String × JVal Num), lookup k src = none →
      lookup k (spreadInto target src) = lookup k target := by
  induction src with
  | nil => intro target _; rfl
  | cons p src ih =>
    intro target h
    obtain ⟨a, b⟩ := p
    have hne : a ≠ k := by
      intro hak
      simp [lookup, hak] at h
    have hrest : lookup k src = none := by
      simpa [lookup, hne] using h
    have := ih (setProp a b target) hrest
    simp only [spreadInto, List.foldl_cons] at this ⊢
    rw [this, lookup_setProp_ne k a b target hne]

theorem lookup_filter_none (k : String) (keep : String × JVal Num → Bool)
    (h : ∀ v, keep (k, v) = false) (ps : List (String × JVal Num)) :
    lookup k (ps.filter keep) = none := by
  induction ps with
  | nil => rfl
  | cons p ps ih =>
    obtain ⟨a, b⟩ := p
    by_cases hkeep : keep (a, b) = true
    · have hne : a ≠ k := by
        intro hak
        subst hak
        simp [h b] at hkeep
      simp [List.filter_cons, hkeep, lookup, hne, ih]
    · simp [List.filter_cons, hkeep, ih]

/-- The headers of the request carry the token unless the caller's own
headers name it. -/
theorem buildOpts_csrf (B : Browser Num) (cookie : String) (options : List (String × JVal Num))
    (h : ∀ v, lookup "headers" options = some v → lookup "X-CSRFToken" (ownProps v) = none) :
    getProp B (getPropOpt (buildOpts B cookie options) "headers") "X-CSRFToken"
      = .ok (CSRF cookie) := by
  have hrest : lookup "headers" (options.filter
      (fun p => !(p.1 == "method" || p.1 == "json" || p.1 == "headers"))) = none :=
    lookup_filter_none "headers" _ (by intro v; simp) options
  have hown : lookup "X-CSRFToken" (ownProps
      (match lookup "headers" options with
        | none => JVal.obj []
        | some .undefined => JVal.obj []
        | some v => v)) = none := by
    cases hl : lookup "headers" options with
    | none => rfl
    | some v =>
      have := h v hl
      cases v <;> first | rfl | simpa using this
  simp only [buildOpts, getPropOpt]
  rw [lookup_spreadInto_none "headers" _ _ hrest]
  by_cases hj : truthy B ((lookup "json" options).getD JVal.undefined) = true
  · simp [hj, spreadInto, setProp, lookup, getProp]
    have := lookup_spreadInto_none _ _
      [("X-CSRFToken", CSRF cookie), ("Content-Type", JVal.str "application/json")] hown
    simp only [spreadInto, lookup, if_true] at this
    simp [this]
  · simp [hj, spreadInto, setProp, lookup, getProp]
    have := lookup_spreadInto_none _ _ [("X-CSRFToken", CSRF cookie)] hown
    simp only [spreadInto, lookup, if_true] at this
    simp [this]

end ObjectLemmas

/-! ## Traces of computations -/

section TraceLemmas

variable {Num : Type} {α β : Type}

/-- Every event a computation adds to the trace satisfies `Q` (which may
depend on the cookie text), and the cookie text is left alone. -/
def Steps (Q : String → Event Num → Prop) (f : Eff Num α) : Prop :=
  ∀ st, ∃ evs, (f st).2.trace = st.trace ++ evs ∧ (f st).2.cookie = st.cookie ∧
    ∀ ev ∈ evs, Q st.cookie ev

/-- A computation of `Steps` whose requests are also final when they fail: if
the `api` call behind one of its `fetch` events rejects with `e`, that event is
the last one and the computation throws `e`. -/
def Proper (B : Browser Num) (Q : String → Event Num → Prop) (f : Eff Num α) : Prop :=
  ∀ st, ∃ evs, (f st).2.trace = st.trace ++ evs ∧ (f st).2.cookie = st.cookie ∧
    (∀ ev ∈ evs, Q st.cookie ev) ∧
    ∀ pre url opts post e, evs = pre ++ Event.fetch url opts :: post →
      apiFinish B (B.net (st.trace.length + pre.length) url opts) = .error e →
      post = [] ∧ (f st).1 = .error e

theorem Proper.steps {B : Browser Num} {Q : String → Event Num → Prop} {f : Eff Num α}
    (h : Proper B Q f) : Steps Q f := by
  intro st
  obtain ⟨evs, h1, h2, h3, _⟩ := h st
  exact ⟨evs, h1, h2, h3⟩

theorem proper_quiet (B : Browser Num) (Q : String → Event Num → Prop) (f : Eff Num α)
    (h : ∀ st, (f st).2.trace = st.trace ∧ (f st).2.cookie = st.cookie) : Proper B Q f := by
  intro st
  refine ⟨[], by simp [(h st).1], (h st).2, by simp, ?_⟩
  intro pre url opts post e hev
  simp at hev

theorem proper_api (B : Browser Num) (Q : String → Event Num → Prop) (url : String)
    (options : List (String × JVal Num))
    (hQ : ∀ c, Q c (Event.fetch url (buildOpts B c options))) :
    Proper B Q (api B url options) := by
  intro st
  refine ⟨[Event.fetch url (buildOpts B st.cookie options)], rfl, rfl, ?_, ?_⟩
  · intro ev hev
    simp at hev
    subst hev
    exact hQ _
  · intro pre url' opts post e hev herr
    cases pre with
    | nil =>
      simp at hev
      obtain ⟨⟨hu, ho⟩, hp⟩ := hev
      subst hu ho hp
      simp at herr
      exact ⟨rfl, herr⟩
    | cons p pre =>
      simp at hev

theorem proper_andThen (B : Browser Num) (Q : String → Event Num → Prop) (f : Eff Num α)
    (g : α → Eff Num β) (hf : Proper B Q f) (hg : ∀ a, Proper B Q (g a)) :
    Proper B Q (andThen f g) := by
  intro st
  obtain ⟨e1, ht1, hc1, hq1, hr1⟩ := hf st
  cases hfs : f st with
  | mk r st1 =>
    rw [hfs] at ht1 hc1 hr1
    simp only at ht1 hc1 hr1
    cases r with
    | error err =>
      refine ⟨e1, by simp [andThen, hfs, ht1], by simp [andThen, hfs, hc1], hq1, ?_⟩
      intro pre url opts post e hev herr
      simpa [andThen, hfs] using hr1 pre url opts post e hev herr
    | ok a =>
      obtain ⟨e2, ht2, hc2, hq2, hr2⟩ := hg a st1
      refine ⟨e1 ++ e2, by simp [andThen, hfs, ht2, ht1], by simp [andThen, hfs, hc2, hc1],
        ?_, ?_⟩
      · intro ev hev
        rcases List.mem_append.mp hev with h | h
        · exact hq1 ev h
        · simpa [hc1] using hq2 ev h
      · intro pre url opts post e hev herr
        rcases List.append_eq_append_iff.mp hev with ⟨a', hpre, he2⟩ | ⟨c', he1, hrest⟩
        · -- the event lies in the part added by `g a`
          have := hr2 a' url opts post e he2
            (by simpa [ht1, hpre, Nat.add_assoc] using herr)
          simpa [andThen, hfs] using this
        · cases c' with
          | nil =>
            simp at he1 hrest
            have := hr2 [] url opts post e hrest.symm
              (by simpa [ht1, he1] using herr)
            simpa [andThen, hfs] using this
          | cons x c' =>
            simp at hrest
            obtain ⟨hx, hpost⟩ := hrest
            subst hx
            have := hr1 pre url opts c' e he1 herr
            simp at this

theorem proper_pre (B : Browser Num) (Q : String → Event Num → Prop) (f : Eff Num α)
    (m : St Num → St Num) (hm : ∀ st, (m st).trace = st.trace ∧ (m st).cookie = st.cookie)
    (hf : Proper B Q f) : Proper B Q (fun st => f (m st)) := by
  intro st
  obtain ⟨evs, h1, h2, h3, h4⟩ := hf (m st)
  refine ⟨evs, by simpa [(hm st).1] using h1, by simpa [(hm st).2] using h2, ?_, ?_⟩
  · simpa [(hm st).2] using h3
  · simpa [(hm st).1] using h4

/-- The events of the requests and confirmations the handlers make all
satisfy `Q`. -/
structure Covers (B : Browser Num) (Q : String → Event Num → Prop) : Prop where
  get : ∀ c url, Q c (Event.fetch url (buildOpts B c []))
  meth : ∀ c url m, Q c (Event.fetch url (buildOpts B c [("method", .str m)]))
  pub : ∀ c url next,
    Q c (Event.fetch url (buildOpts B c [("method", .str "PATCH"), ("json", pubPayload next)]))
  save : ∀ c url m f,
    Q c (Event.fetch url (buildOpts B c [("method", .str m), ("json", savePayload B f)]))
  confirm : ∀ c m a, Q c (Event.confirm m a)

theorem render_quiet (B : Browser Num) (st : St Num) :
    (renderCuestionarios B st).2.trace = st.trace ∧
      (renderCuestionarios B st).2.cookie = st.cookie := by
  unfold renderCuestionarios
  split
  · exact ⟨rfl, rfl⟩
  · split
    · split <;> exact ⟨rfl, rfl⟩
    · exact ⟨rfl, rfl⟩

theorem proper_load (B : Browser Num) (Q : String → Event Num → Prop)
    (hget : ∀ c url, Q c (Event.fetch url (buildOpts B c []))) :
    Proper B Q (loadCuestionarios B) := by
  unfold loadCuestionarios
  refine proper_andThen B Q _ _ (proper_api B Q _ _ (fun c => hget c _)) ?_
  intro out
  refine proper_quiet B Q _ ?_
  intro st
  exact render_quiet B _

theorem showItem_quiet (B : Browser Num) (out : JVal Num) (st : St Num) :
    (showItem B out st).2.trace = st.trace ∧ (showItem B out st).2.cookie = st.cookie := by
  unfold showItem
  simp only
  split
  · exact ⟨rfl, rfl⟩
  · split
    · exact ⟨rfl, rfl⟩
    · split <;> exact ⟨rfl, rfl⟩

theorem proper_openEdit (B : Browser Num) (Q : String → Event Num → Prop) (hQ : Covers B Q)
    (id : Num) : Proper B Q (openEdit B id) := by
  unfold openEdit
  refine proper_pre B Q _ (fun st => { st with editId := some id }) (fun _ => ⟨rfl, rfl⟩) ?_
  refine proper_andThen B Q _ _ (proper_api B Q _ _ (fun c => hQ.get c _)) ?_
  intro out
  exact proper_quiet B Q _ (showItem_quiet B out)

theorem proper_pubAction (B : Browser Num) (Q : String → Event Num → Prop) (hQ : Covers B Q)
    (id : Num) : Proper B Q (pubAction B id) := by
  unfold pubAction
  refine proper_andThen B Q _ _ (proper_quiet B Q _ (fun _ => ⟨rfl, rfl⟩)) ?_
  intro row
  exact proper_andThen B Q _ _ (proper_api B Q _ _ (fun c => hQ.pub c _ _))
    (fun _ => proper_load B Q hQ.get)

theorem proper_dupAction (B : Browser Num) (Q : String → Event Num → Prop) (hQ : Covers B Q)
    (id : Num) : Proper B Q (dupAction B id) := by
  unfold dupAction
  exact proper_andThen B Q _ _ (proper_api B Q _ _ (fun c => hQ.meth c _ _))
    (fun _ => proper_load B Q hQ.get)

theorem proper_askConfirm (B : Browser Num) (Q : String → Event Num → Prop) (hQ : Covers B Q)
    (text : String) : Proper B Q (askConfirm B text) := by
  intro st
  refine ⟨[Event.confirm text (B.confirmAnswer st.trace.length text)], rfl, rfl, ?_, ?_⟩
  · intro ev hev
    simp at hev
    subst hev
    exact hQ.confirm _ _ _
  · intro pre url opts post e hev
    cases pre with
    | nil => simp at hev
    | cons p pre => simp at hev

theorem proper_delAction (B : Browser Num) (Q : String → Event Num → Prop) (hQ : Covers B Q)
    (id : Num) : Proper B Q (delAction B id) := by
  unfold delAction
  refine proper_andThen B Q _ _ (proper_askConfirm B Q hQ _) ?_
  intro answer
  cases answer with
  | true =>
    simpa using proper_andThen B Q _ _ (proper_api B Q _ _ (fun c => hQ.meth c _ _))
      (fun _ => proper_load B Q hQ.get)
  | false =>
    simpa using proper_quiet B Q (fun st : St Num => ((Except.ok () : Except JSError Unit), st))
      (fun _ => ⟨rfl, rfl⟩)

theorem proper_saveRequest (B : Browser Num) (Q : String → Event Num → Prop) (hQ : Covers B Q)
    (f : String → Option String) : Proper B Q (saveRequest B (savePayload B f)) := by
  unfold saveRequest
  refine proper_andThen B Q _ _ ?_ ?_
  · intro st
    cases hid : st.editId with
    | none =>
      simpa [hid] using proper_api B Q API_LIST _ (fun c => hQ.save c _ "POST" f) st
    | some n =>
      by_cases hn : B.numTruthy n = true
      · simpa [hid, hn] using proper_api B Q (API_ITEM B n) _ (fun c => hQ.save c _ "PATCH" f) st
      · simpa [hid, hn] using proper_api B Q API_LIST _ (fun c => hQ.save c _ "POST" f) st
  · intro _
    refine proper_andThen B Q _ _ (proper_quiet B Q _ ?_) (fun _ => proper_load B Q hQ.get)
    intro st
    unfold closeDialog
    split <;> exact ⟨rfl, rfl⟩

/-- The `try` block of the click handler, for any button. -/
theorem proper_clickBody (B : Browser Num) (Q : String → Event Num → Prop) (hQ : Covers B Q)
    (btn : Dataset) (id : String) :
    Proper B Q
      (if strTruthy btn.edit then openEdit B (B.toNumber id)
       else if strTruthy btn.pub then pubAction B (B.toNumber id)
       else if strTruthy btn.dup then dupAction B (B.toNumber id)
       else if strTruthy btn.del then delAction B (B.toNumber id)
       else fun s => (.ok (), s)) := by
  split
  · exact proper_openEdit B Q hQ _
  · split
    · exact proper_pubAction B Q hQ _
    · split
      · exact proper_dupAction B Q hQ _
      · split
        · exact proper_delAction B Q hQ _
        · exact proper_quiet B Q _ (fun _ => ⟨rfl, rfl⟩)

theorem steps_tryAlert (B : Browser Num) (Q : String → Event Num → Prop) (body : Eff Num Unit)
    (hb : Proper B Q body) (halert : ∀ c m, Q c (Event.alert m)) : Steps Q (tryAlert body) := by
  intro st
  obtain ⟨evs, h1, h2, h3, _⟩ := hb st
  cases hbs : body st with
  | mk r st1 =>
    rw [hbs] at h1 h2
    simp only at h1 h2
    cases r with
    | ok u => exact ⟨evs, by simp [tryAlert, hbs, h1], by simp [tryAlert, hbs, h2], h3⟩
    | error e =>
      refine ⟨evs ++ [Event.alert (alertText e)], by simp [tryAlert, hbs, h1],
        by simp [tryAlert, hbs, h2], ?_⟩
      intro ev hev
      rcases List.mem_append.mp hev with h | h
      · exact h3 ev h
      · simp at h
        subst h
        exact halert _ _

theorem steps_onclick (B : Browser Num) (Q : String → Event Num → Prop) (hQ : Covers B Q)
    (halert : ∀ c m, Q c (Event.alert m)) (target : Option Dataset) :
    Steps Q (onclick B target) := by
  intro st
  have hnone : ∃ evs, st.trace = st.trace ++ evs ∧ st.cookie = st.cookie ∧
      ∀ ev ∈ evs, Q st.cookie ev := ⟨[], by simp, rfl, by simp⟩
  unfold onclick
  split
  · exact hnone
  · split
    · exact hnone
    · split
      · exact hnone
      · exact steps_tryAlert B Q _ (proper_clickBody B Q hQ _ _) halert st

theorem steps_saveHandler (B : Browser Num) (Q : String → Event Num → Prop) (hQ : Covers B Q)
    (halert : ∀ c m, Q c (Event.alert m)) : Steps Q (saveHandler B) := by
  intro st
  unfold saveHandler
  split
  · exact ⟨[], by simp, rfl, by simp⟩
  · simp only
    split
    · refine ⟨[Event.alert requiredText], rfl, rfl, ?_⟩
      intro ev hev
      simp at hev
      subst hev
      exact halert _ _
    · exact steps_tryAlert B Q _ (proper_saveRequest B Q hQ _) halert st

/-- The `catch` block: when a request of the `try` block fails, nothing
follows it but one alert, and the handler returns normally. -/
theorem tryAlert_reject (B : Browser Num) (Q : String → Event Num → Prop) (body : Eff Num Unit)
    (hb : Proper B Q body) (hQ : ∀ c m, ¬ Q c (Event.alert m)) (st : St Num)
    (pre post : List (Event Num)) (url : String) (opts : JVal Num) (e : JSError)
    (htrace : (tryAlert body st).2.trace = st.trace ++ pre ++ Event.fetch url opts :: post)
    (herr : apiFinish B (B.net (st.trace ++ pre).length url opts) = .error e) :
    (tryAlert body st).1 = .ok () ∧ post = [Event.alert (alertText e)] ∧
      ∀ m, Event.alert m ∉ pre := by
  obtain ⟨evs, h1, _, h3, h4⟩ := hb st
  rw [List.length_append] at herr
  cases hbs : body st with
  | mk r st1 =>
    rw [hbs] at h1 h4
    simp only at h1 h4
    cases r with
    | ok u =>
      have hev : evs = pre ++ Event.fetch url opts :: post := by
        have : st.trace ++ evs = st.trace ++ (pre ++ Event.fetch url opts :: post) := by
          simpa [tryAlert, hbs, h1] using htrace
        exact List.append_cancel_left this
      have := h4 pre url opts post e hev herr
      simp at this
    | error e' =>
      have hev : evs ++ [Event.alert (alertText e')] = pre ++ Event.fetch url opts :: post := by
        have : st.trace ++ (evs ++ [Event.alert (alertText e')])
            = st.trace ++ (pre ++ Event.fetch url opts :: post) := by
          simpa [tryAlert, hbs, h1] using htrace
        exact List.append_cancel_left this
      rcases List.eq_nil_or_concat post with hp | ⟨post', x, hp⟩
      · subst hp
        have := congrArg List.getLast? hev
        simp at this
      · subst hp
        have hev' : evs ++ [Event.alert (alertText e')]
            = (pre ++ Event.fetch url opts :: post') ++ [x] := by
          simpa using hev
        obtain ⟨hevs, hx⟩ := List.append_inj' hev' rfl
        have := h4 pre url opts post' e hevs herr
        obtain ⟨hpost', he⟩ := this
        simp at he
        subst hpost' he
        simp at hx
        refine ⟨by simp [tryAlert, hbs], by simp [hx], ?_⟩
        intro m hm
        exact hQ st.cookie m (h3 _ (by simp [hevs, hm]))

end TraceLemmas

/-! ## The panel's contract -/

section Contract

variable {Num : Type}

/-- Every request the handler makes carries the token of the cookie. -/
def CarriesToken (B : Browser Num) (handler : Eff Num Unit) : Prop :=
  ∀ st, ∃ evs, (handler st).2.trace = st.trace ++ evs ∧
    ∀ url opts, Event.fetch url opts ∈ evs →
      getProp B (getPropOpt opts "headers") "X-CSRFToken" = .ok (CSRF st.cookie)

theorem covers_token (B : Browser Num) :
    Covers B (fun c ev => ∀ url opts, ev = Event.fetch url opts →
      getProp B (getPropOpt opts "headers") "X-CSRFToken" = .ok (CSRF c)) where
  get := by
    intro c url u o h
    cases h
    exact buildOpts_csrf B c _ (by simp [lookup])
  meth := by
    intro c url m u o h
    cases h
    exact buildOpts_csrf B c _ (by simp [lookup])
  pub := by
    intro c url next u o h
    cases h
    exact buildOpts_csrf B c _ (by simp [lookup])
  save := by
    intro c url m f u o h
    cases h
    exact buildOpts_csrf B c _ (by simp [lookup])
  confirm := by
    intro c m a u o h
    cases h

theorem carriesToken_of_steps (B : Browser Num) (handler : Eff Num Unit)
    (h : Steps (fun c ev => ∀ url opts, ev = Event.fetch url opts →
      getProp B (getPropOpt opts "headers") "X-CSRFToken" = .ok (CSRF c)) handler) :
    CarriesToken B handler := by
  intro st
  obtain ⟨evs, h1, _, h3⟩ := h st
  exact ⟨evs, h1, fun url opts hmem => h3 _ hmem url opts rfl⟩

/-- C1. CSRF-token injection: when the headers given to `api(url, options)` do
not themselves name `X-CSRFToken`, the only call of `fetch` receives an object
whose `headers['X-CSRFToken']` is `getCookie('csrftoken')` on the cookie text
of that moment; and every request made by the click handler of the table
(edit, publish, duplicate, delete) and by the save handler (create, edit)
carries that header. -/
theorem csrf_token_injected (B : Browser Num) (url : String)
    (options : List (String × JVal Num)) (st : St Num) (target : Option Dataset)
    (h : ∀ v, lookup "headers" options = some v → lookup "X-CSRFToken" (ownProps v) = none) :
    (∃ opts, (api B url options st).2.trace = st.trace ++ [Event.fetch url opts] ∧
      getProp B (getPropOpt opts "headers") "X-CSRFToken" = .ok (CSRF st.cookie)) ∧
    CarriesToken B (onclick B target) ∧ CarriesToken B (saveHandler B) := by
  refine ⟨⟨buildOpts B st.cookie options, rfl, buildOpts_csrf B st.cookie options h⟩, ?_, ?_⟩
  · exact carriesToken_of_steps B _
      (steps_onclick B _ (covers_token B) (by intro c m u o h; cases h) target)
  · exact carriesToken_of_steps B _
      (steps_saveHandler B _ (covers_token B) (by intro c m u o h; cases h))

theorem csrf_token_injected_witness :
    (∀ v, lookup "headers" exOptions = some v → lookup "X-CSRFToken" (ownProps v) = none) ∧
    ∃ opts, (api (exBrowser exNetList true) API_LIST exOptions (exPage "PHQ9" "Salud")).2.trace
        = [Event.fetch API_LIST opts] ∧
      getProp (exBrowser exNetList true) (getPropOpt opts "headers") "X-CSRFToken"
        = .ok (.str "tok123") :=
  have hyp : ∀ v, lookup "headers" exOptions = some v →
      lookup "X-CSRFToken" (ownProps v) = none := by
    intro v hv
    simp [exOptions, lookup] at hv
    subst hv
    rfl
  ⟨hyp, (csrf_token_injected (exBrowser exNetList true) API_LIST exOptions
    (exPage "PHQ9" "Salud") none hyp).1⟩

/-- C7. `api` fails exactly on a bad status or an explicit `ok: false`: when
the body of the response parses to a JSON object `d` (an unparseable body
counting as the empty object), the call throws an `Error` if and only if the
`ok` flag of the response is false or `d.ok` is `false`, and returns `d`
unchanged otherwise; either way `fetch` is called exactly once. -/
theorem api_fails_exactly (B : Browser Num) (url : String)
    (options : List (String × JVal Num)) (st : St Num) (ok : Bool) (statusText : String)
    (body : Option (JVal Num)) (d : List (String × JVal Num))
    (hres : B.net st.trace.length url (buildOpts B st.cookie options)
      = .response ok statusText body)
    (hbody : body.getD (.obj []) = .obj d) :
    ((∃ e, (api B url options st).1 = .error e) ↔
      (ok = false ∨ lookup "ok" d = some (.bool false))) ∧
    (¬ (ok = false ∨ lookup "ok" d = some (.bool false)) →
      (api B url options st).1 = .ok (.obj d)) ∧
    (api B url options st).2.trace
      = st.trace ++ [Event.fetch url (buildOpts B st.cookie options)] := by
  have hfalse : ∀ v : JVal Num, isFalse v = true ↔ v = .bool false := by
    intro v
    cases v <;> simp [isFalse]
    rename_i b
    cases b <;> simp [isFalse]
  have hok : isFalse ((lookup "ok" d).getD .undefined) = true ↔
      lookup "ok" d = some (.bool false) := by
    rw [hfalse]
    cases lookup "ok" d <;> simp
  have hthrow : ∀ m : JVal Num, ∃ e, (match toStr B m with
      | .error e => (Except.error e : Except JSError (JVal Num))
      | .ok t => .error ⟨"Error", t⟩) = .error e := by
    intro m
    cases toStr B m with
    | error e => exact ⟨e, rfl⟩
    | ok t => exact ⟨_, rfl⟩
  refine ⟨?_, ?_, rfl⟩
  · simp only [api, hres, apiFinish, hbody, getProp]
    cases ok with
    | false => simpa using hthrow _
    | true =>
      by_cases hd : isFalse ((lookup "ok" d).getD .undefined) = true
      · simpa [hd, hok.mp hd] using hthrow _
      · have hd' : ¬ lookup "ok" d = some (.bool false) := fun h => hd (hok.mpr h)
        simp [hd, hd']
  · intro hnot
    simp only [not_or] at hnot
    obtain ⟨h1, h2⟩ := hnot
    have hd : isFalse ((lookup "ok" d).getD .undefined) = false := by
      cases hv : isFalse ((lookup "ok" d).getD .undefined) with
      | false => rfl
      | true => exact absurd (hok.mp hv) h2
    have hok1 : ok = true := by simpa using h1
    subst hok1
    simp [api, hres, apiFinish, hbody, getProp, hd]

theorem api_fails_exactly_witness :
    exNetForbidden 0 API_LIST
        (buildOpts (exBrowser exNetForbidden true) (exPage "PHQ9" "Salud").cookie [])
      = .response false "Forbidden" (some (.obj [("ok", .bool false), ("error", .str "No autorizado")])) ∧
    (∃ e, (api (exBrowser exNetForbidden true) API_LIST [] (exPage "PHQ9" "Salud")).1
      = .error e) :=
  ⟨rfl, (api_fails_exactly (exBrowser exNetForbidden true) API_LIST [] (exPage "PHQ9" "Salud")
    false "Forbidden" (some (.obj [("ok", .bool false), ("error", .str "No autorizado")]))
    [("ok", .bool false), ("error", .str "No autorizado")] rfl rfl).1.mpr (Or.inl rfl)⟩

/-- The text of the alert of the `catch` blocks, spelled out: the message of
the error, and for an error with an empty message its `String(e)`, which is
then the name of the error. -/
theorem alertText_spelled (e : JSError) :
    alertText e = (if e.message = "" then e.name else e.message) ∧
      (e.message = "" → errorToString e = e.name) := by
  by_cases hm : e.message = ""
  · by_cases hn : e.name = ""
    · simp [alertText, errorToString, hm, hn]
    · simp [alertText, errorToString, hm, hn]
  · simp [alertText, hm]

/-- C2. Failure handling is a try/catch that shows an alert: in a run of the
click handler of the table (whatever was clicked) or of the save handler, if
the `api` call behind a `fetch` of the run rejects with `e`, then nothing
follows that `fetch` but one `alert`, whose text is `e.message` when that is
not empty and `String(e)` otherwise (for an empty message that is the name of
the error); no alert precedes it, and the handler returns without throwing. -/
theorem failed_request_alerts_once (B : Browser Num) (target : Option Dataset)
    (handler : Eff Num Unit) (st : St Num) (pre post : List (Event Num)) (url : String)
    (opts : JVal Num) (e : JSError)
    (hh : handler = onclick B target ∨ handler = saveHandler B)
    (htrace : (handler st).2.trace = st.trace ++ pre ++ Event.fetch url opts :: post)
    (herr : apiFinish B (B.net (st.trace ++ pre).length url opts) = .error e) :
    (handler st).1 = .ok () ∧
      post = [Event.alert (if e.message = "" then e.name else e.message)] ∧
      ∀ m, Event.alert m ∉ pre := by
  rw [← (alertText_spelled e).1]
  have hcov : Covers B (fun _ ev => ∀ m, ev ≠ Event.alert m) :=
    ⟨fun _ _ m h => (by cases h), fun _ _ _ m h => (by cases h), fun _ _ _ m h => (by cases h),
     fun _ _ _ _ m h => (by cases h), fun _ _ _ m h => (by cases h)⟩
  have hnot : ∀ (c : String) (m : String),
      ¬ (fun (_ : String) (ev : Event Num) => ∀ m, ev ≠ Event.alert m) c (Event.alert m) :=
    fun _ m h => h m rfl
  have hlen : st.trace = st.trace ++ pre ++ Event.fetch url opts :: post → False := by
    intro h
    have := congrArg List.length h
    simp at this
  rcases hh with hh | hh
  · subst hh
    unfold onclick at htrace ⊢
    split at htrace
    · exact (hlen htrace).elim
    · split at htrace
      · exact (hlen htrace).elim
      · split at htrace
        · exact (hlen htrace).elim
        · rename_i hid
          simp only [hid]
          exact tryAlert_reject B _ _ (proper_clickBody B _ hcov _ _) hnot st pre post url opts e
            htrace herr
  · subst hh
    unfold saveHandler at htrace ⊢
    split at htrace
    · exact (hlen htrace).elim
    · simp only at htrace
      split at htrace
      · exfalso
        have h2 : [Event.alert requiredText] = pre ++ Event.fetch url opts :: post := by
          have : st.trace ++ [Event.alert requiredText]
              = st.trace ++ (pre ++ Event.fetch url opts :: post) := by
            simpa using htrace
          exact List.append_cancel_left this
        cases pre with
        | nil => simp at h2
        | cons p pre => simp at h2
      · rename_i hreq
        simp only [hreq]
        exact tryAlert_reject B _ _ (proper_saveRequest B _ hcov _) hnot st pre post url opts e
          htrace herr

theorem failed_request_alerts_once_witness :
    ((saveHandler (exBrowser exNetSilent true) (exPage "PHQ9" "Salud")).2.trace
        = (exPage "PHQ9" "Salud").trace ++ [] ++
          Event.fetch "/dashboard/admin/catalogo/api/cuestionarios/"
            (buildOpts (exBrowser exNetSilent true) "sessionid=abc; csrftoken=tok123"
              [("method", .str "POST"),
               ("json", savePayload (exBrowser exNetSilent true)
                 (fromEntries [("codigo", "PHQ9"), ("nombre", "Salud"),
                   ("estado", "published")]))]) :: [Event.alert "TypeError"] ∧
      apiFinish (exBrowser exNetSilent true)
          ((exBrowser exNetSilent true).net ((exPage "PHQ9" "Salud").trace ++ []).length
            "/dashboard/admin/catalogo/api/cuestionarios/"
            (buildOpts (exBrowser exNetSilent true) "sessionid=abc; csrftoken=tok123"
              [("method", .str "POST"),
               ("json", savePayload (exBrowser exNetSilent true)
                 (fromEntries [("codigo", "PHQ9"), ("nombre", "Salud"),
                   ("estado", "published")]))]))
        = .error ⟨"TypeError", ""⟩ ∧
      (saveHandler (exBrowser exNetSilent true) (exPage "PHQ9" "Salud")).1 = .ok () ∧
      [Event.alert "TypeError"]
        = [(Event.alert (if (⟨"TypeError", ""⟩ : JSError).message = ""
            then (⟨"TypeError", ""⟩ : JSError).name
            else (⟨"TypeError", ""⟩ : JSError).message) : Event (Option Nat))]) ∧
    ((onclick (exBrowser exNetForbidden true) (some ⟨none, none, some "7", none⟩)
          (exPage "PHQ9" "Salud")).2.trace
        = (exPage "PHQ9" "Salud").trace ++ [] ++
          Event.fetch "/dashboard/admin/catalogo/api/cuestionarios/7/duplicar/"
            (buildOpts (exBrowser exNetForbidden true) "sessionid=abc; csrftoken=tok123"
              [("method", .str "POST")]) :: [Event.alert "No autorizado"] ∧
      apiFinish (exBrowser exNetForbidden true)
          ((exBrowser exNetForbidden true).net ((exPage "PHQ9" "Salud").trace ++ []).length
            "/dashboard/admin/catalogo/api/cuestionarios/7/duplicar/"
            (buildOpts (exBrowser exNetForbidden true) "sessionid=abc; csrftoken=tok123"
              [("method", .str "POST")]))
        = .error ⟨"Error", "No autorizado"⟩ ∧
      (onclick (exBrowser exNetForbidden true) (some ⟨none, none, some "7", none⟩)
          (exPage "PHQ9" "Salud")).1 = .ok ()) :=
  ⟨⟨rfl, rfl,
    (failed_request_alerts_once (exBrowser exNetSilent true) none _ (exPage "PHQ9" "Salud") []
      [Event.alert "TypeError"] _ _ ⟨"TypeError", ""⟩ (Or.inr rfl) rfl rfl).1,
    (failed_request_alerts_once (exBrowser exNetSilent true) none _ (exPage "PHQ9" "Salud") []
      [Event.alert "TypeError"] _ _ ⟨"TypeError", ""⟩ (Or.inr rfl) rfl rfl).2.1⟩,
   ⟨rfl, rfl,
    (failed_request_alerts_once (exBrowser exNetForbidden true)
      (some ⟨none, none, some "7", none⟩) _ (exPage "PHQ9" "Salud") []
      [Event.alert "No autorizado"] _ _ ⟨"Error", "No autorizado"⟩ (Or.inl rfl) rfl rfl).1⟩⟩

/-- The payload carries a boolean `activo` that is true exactly when its
`estado` is the string `'published'`. -/
def Consistent (payload : JVal Num) : Prop :=
  getPropOpt payload "activo" = .bool (isPublished (getPropOpt payload "estado"))

/-- Every request body the handler sends is the JSON text of a payload built
by the publish button or by the save handler. -/
def SendsPayloads (B : Browser Num) (handler : Eff Num Unit) : Prop :=
  ∀ st, ∃ evs, (handler st).2.trace = st.trace ++ evs ∧
    ∀ url opts, Event.fetch url opts ∈ evs → ∀ v, lookup "body" (ownProps opts) = some v →
      (∃ next, v = .str (B.stringify (pubPayload next))) ∨
      (∃ f, v = .str (B.stringify (savePayload B f)))

theorem covers_payloads (B : Browser Num) :
    Covers B (fun _ ev => ∀ url opts, ev = Event.fetch url opts →
      ∀ v, lookup "body" (ownProps opts) = some v →
        (∃ next, v = .str (B.stringify (pubPayload next))) ∨
        (∃ f, v = .str (B.stringify (savePayload B f)))) where
  get := by
    intro c url u o h v hv
    cases h
    simp [buildOpts, spreadInto, lookup, ownProps, truthy] at hv
  meth := by
    intro c url m u o h v hv
    cases h
    simp [buildOpts, spreadInto, setProp, lookup, ownProps, truthy] at hv
  pub := by
    intro c url next u o h v hv
    cases h
    simp [buildOpts, spreadInto, setProp, lookup, ownProps, truthy, pubPayload] at hv
    exact Or.inl ⟨next, by simp [pubPayload, ← hv]⟩
  save := by
    intro c url m f u o h v hv
    cases h
    simp [buildOpts, spreadInto, setProp, lookup, ownProps, truthy, savePayload] at hv
    exact Or.inr ⟨f, by simp [savePayload, ← hv]⟩
  confirm := by
    intro c m a u o h
    cases h

theorem sendsPayloads_of_steps (B : Browser Num) (handler : Eff Num Unit)
    (h : Steps (fun _ ev => ∀ url opts, ev = Event.fetch url opts →
      ∀ v, lookup "body" (ownProps opts) = some v →
        (∃ next, v = .str (B.stringify (pubPayload next))) ∨
        (∃ f, v = .str (B.stringify (savePayload B f)))) handler) :
    SendsPayloads B handler := by
  intro st
  obtain ⟨evs, h1, _, h3⟩ := h st
  exact ⟨evs, h1, fun url opts hmem => h3 _ hmem url opts rfl⟩

/-- C4. `activo` is always sent and agrees with `estado`: the payload of the
publish button and the payload of the save handler both carry an `estado` and
a boolean `activo` that is true exactly when `estado` is `'published'`, and
every body sent by the click handler of the table or by the save handler is
the JSON text of one of these payloads. -/
theorem activo_matches_estado (B : Browser Num) (target : Option Dataset) :
    (∀ next, ∃ e, lookup "estado" (ownProps (pubPayload next : JVal Num)) = some e ∧
      Consistent (pubPayload next : JVal Num)) ∧
    (∀ f, ∃ e, lookup "estado" (ownProps (savePayload B f)) = some e ∧
      Consistent (savePayload B f)) ∧
    SendsPayloads B (onclick B target) ∧ SendsPayloads B (saveHandler B) := by
  refine ⟨?_, ?_, ?_, ?_⟩
  · intro next
    exact ⟨_, rfl, rfl⟩
  · intro f
    refine ⟨_, rfl, ?_⟩
    simp only [Consistent, savePayload, getPropOpt, lookup, isPublished]
    cases hf : f "estado" with
    | none => simp [orText]
    | some s =>
      by_cases hs : s = ""
      · subst hs
        simp [orText]
      · simp [orText, hs]
  · exact sendsPayloads_of_steps B _
      (steps_onclick B _ (covers_payloads B) (by intro c m u o h; cases h) target)
  · exact sendsPayloads_of_steps B _
      (steps_saveHandler B _ (covers_payloads B) (by intro c m u o h; cases h))

theorem load_extends (B : Browser Num) (st : St Num) :
    ∃ evs, (loadCuestionarios B st).2.trace = st.trace ++ evs ∧
      ∀ m a, Event.confirm m a ∉ evs := by
  obtain ⟨evs, h, _, hq, _⟩ := proper_load B (fun _ ev => ∀ m a, ev ≠ Event.confirm m a)
    (fun _ _ m a h => by cases h) st
  exact ⟨evs, h, fun m a hmem => hq _ hmem m a rfl⟩

/-- The trace of `try { await api(...); await loadCuestionarios() } catch ...`
begins with the `fetch` of that `api` call, and no `confirm` follows. -/
theorem tryAlert_api_load_trace (B : Browser Num) (url : String)
    (options : List (String × JVal Num)) (st : St Num) :
    ∃ more, (tryAlert (andThen (api B url options) (fun _ => loadCuestionarios B)) st).2.trace
      = st.trace ++ Event.fetch url (buildOpts B st.cookie options) :: more ∧
      ∀ m a, Event.confirm m a ∉ more := by
  simp only [tryAlert, andThen, api]
  cases apiFinish B (B.net st.trace.length url (buildOpts B st.cookie options)) with
  | error e => exact ⟨[Event.alert (alertText e)], by simp, by simp⟩
  | ok out =>
    simp only
    obtain ⟨evs, h, hc⟩ := load_extends B
      { st with trace := st.trace ++ [Event.fetch url (buildOpts B st.cookie options)] }
    cases hl : loadCuestionarios B
      { st with trace := st.trace ++ [Event.fetch url (buildOpts B st.cookie options)] } with
    | mk r st2 =>
      rw [hl] at h
      simp only at h
      cases r with
      | ok u => exact ⟨evs, by simp [h], hc⟩
      | error e =>
        refine ⟨evs ++ [Event.alert (alertText e)], by simp [h], ?_⟩
        intro m a hmem
        rcases List.mem_append.mp hmem with h1 | h1
        · exact hc m a h1
        · simp at h1

/-- C6. No deletion without confirmation: in a click on the delete button of a
row (its only data attribute is `data-del`), a DELETE request to
`API_ITEM(+id)` is made if and only if `confirm('¿Eliminar cuestionario?')`
returned true; when it returns false the handler makes no request and leaves
the list `cuestionarios` and the rows of the table as they were. -/
theorem delete_needs_confirm (B : Browser Num) (id : String) (st : St Num) :
    ∃ evs, (onclick B (some ⟨none, none, none, some id⟩) st).2.trace = st.trace ++ evs ∧
      ((∃ opts, Event.fetch (API_ITEM B (B.toNumber id)) opts ∈ evs ∧
          getPropOpt opts "method" = .str "DELETE") ↔
        Event.confirm confirmText true ∈ evs) ∧
      (Event.confirm confirmText false ∈ evs →
        (∀ url opts, Event.fetch url opts ∉ evs) ∧
        (onclick B (some ⟨none, none, none, some id⟩) st).2.cuestionarios = st.cuestionarios ∧
        (onclick B (some ⟨none, none, none, some id⟩) st).2.tbody = st.tbody) := by
  by_cases hid : id = ""
  · subst hid
    refine ⟨[], by simp [onclick, orStr, strTruthy], ?_, ?_⟩ <;> simp
  · have hrun : onclick B (some ⟨none, none, none, some id⟩) st
        = tryAlert (delAction B (B.toNumber id)) st := by
      simp [onclick, orStr, strTruthy, hid]
    rw [hrun]
    cases hans : B.confirmAnswer st.trace.length confirmText with
    | false =>
      refine ⟨[Event.confirm confirmText false], ?_, ?_, ?_⟩
      · simp [tryAlert, delAction, andThen, askConfirm, hans]
      · simp
      · intro _
        refine ⟨by simp, ?_, ?_⟩ <;> simp [tryAlert, delAction, andThen, askConfirm, hans]
    | true =>
      obtain ⟨more, hmore, hnc⟩ := tryAlert_api_load_trace B (API_ITEM B (B.toNumber id))
        [("method", .str "DELETE")]
        { st with trace := st.trace ++ [Event.confirm confirmText true] }
      have hdel : tryAlert (delAction B (B.toNumber id)) st
          = tryAlert (andThen (api B (API_ITEM B (B.toNumber id)) [("method", .str "DELETE")])
              (fun _ => loadCuestionarios B))
            { st with trace := st.trace ++ [Event.confirm confirmText true] } := by
        simp [tryAlert, delAction, andThen, askConfirm, hans]
      rw [hdel, hmore]
      refine ⟨Event.confirm confirmText true ::
        Event.fetch (API_ITEM B (B.toNumber id)) (buildOpts B st.cookie [("method", .str "DELETE")])
          :: more, by simp, ?_, ?_⟩
      · refine ⟨fun _ => by simp, fun _ =>
          ⟨buildOpts B st.cookie [("method", .str "DELETE")], by simp, ?_⟩⟩
        simp [buildOpts, spreadInto, setProp, lookup, getPropOpt, truthy]
      · intro h
        simp at h
        exact absurd h (hnc _ _)

theorem appendRows_ok (B : Browser Num) (L : List (JVal Num))
    (h : ∀ c ∈ L, ∃ r, rowHtml B c = .ok r) :
    ∀ acc, ∃ rows, appendRows B L acc = (acc ++ rows, none) ∧
      List.Forall₂ (fun c r => rowHtml B c = .ok r) L rows := by
  induction L with
  | nil =>
    intro acc
    exact ⟨[], by simp [appendRows], List.Forall₂.nil⟩
  | cons c cs ih =>
    intro acc
    obtain ⟨r, hr⟩ := h c (by simp)
    obtain ⟨rows, hrows, hall⟩ := ih (fun x hx => h x (by simp [hx])) (acc ++ [r])
    exact ⟨r :: rows, by simp [appendRows, hr, hrows], List.Forall₂.cons hr hall⟩

/-- Rendering leaves `cuestionarios` alone, and the rows it leaves depend only
on `cuestionarios` and on the presence of the table body. -/
theorem render_idempotent (B : Browser Num) (s : St Num) :
    (renderCuestionarios B (renderCuestionarios B s).2).2.tbody
      = (renderCuestionarios B s).2.tbody := by
  cases htb : s.tbody with
  | none => simp [renderCuestionarios, htb]
  | some old =>
    cases hc : s.cuestionarios <;> simp [renderCuestionarios, htb, hc]
    rename_i xs
    cases happ : appendRows B xs [] with
    | mk rows err =>
      cases err <;> simp [hc, happ]

/-- The row template throws on an element whose `updated` has no primitive
value, as `new Date(iso)` does. -/
theorem rowHtml_date_without_primitive :
    rowHtml (exBrowser exNetList true) exItemBadDate
      = .error ⟨"TypeError", "Cannot read properties (toString)"⟩ := rfl

/-- C3 (as amended). The fetched list is rendered as the table: when `api`
resolves to a response whose `results` is a list `L`, the table body is
present and the row template evaluates without an exception on every element
of `L`, the body then holds exactly `length(L)` rows, the i-th one built from
the i-th element of `L`, whatever rows it held before; and rendering once more
leaves the same rows (as it does in every state). -/
theorem rendered_rows_follow_list (B : Browser Num) (st : St Num) (out : JVal Num)
    (L : List (JVal Num)) (old : List String)
    (hapi : (api B API_LIST [] st).1 = .ok out)
    (hres : getPropOpt out "results" = .arr L)
    (htb : st.tbody = some old)
    (hrows : ∀ c ∈ L, ∃ r, rowHtml B c = .ok r) :
    (∃ rows, (loadCuestionarios B st).2.tbody = some rows ∧ rows.length = L.length ∧
      List.Forall₂ (fun c r => rowHtml B c = .ok r) L rows ∧
      (renderCuestionarios B (loadCuestionarios B st).2).2.tbody = some rows) ∧
    ∀ s : St Num, (renderCuestionarios B (renderCuestionarios B s).2).2.tbody
      = (renderCuestionarios B s).2.tbody := by
  refine ⟨?_, render_idempotent B⟩
  obtain ⟨rows, happ, hall⟩ := appendRows_ok B L hrows []
  have hload : (loadCuestionarios B st).2.tbody = some rows := by
    simp only [api] at hapi
    simp [loadCuestionarios, andThen, api, hapi, hres, truthy, renderCuestionarios, htb, happ]
  refine ⟨rows, hload, hall.length_eq.symm, hall, ?_⟩
  have hcu : (loadCuestionarios B st).2.cuestionarios = .arr L := by
    simp only [api] at hapi
    simp [loadCuestionarios, andThen, api, hapi, hres, truthy, renderCuestionarios, htb, happ]
  simp [renderCuestionarios, hload, hcu, happ]

theorem rendered_rows_follow_list_witness :
    (api (exBrowser exNetList true) API_LIST [] (exPage "PHQ9" "Salud")).1
      = .ok (.obj [("ok", .bool true), ("results", .arr [exItem])]) ∧
    (∀ c ∈ [exItem], ∃ r, rowHtml (exBrowser exNetList true) c = .ok r) ∧
    ∃ rows, (loadCuestionarios (exBrowser exNetList true) (exPage "PHQ9" "Salud")).2.tbody
        = some rows ∧ rows.length = 1 :=
  have hrows : ∀ c ∈ [exItem], ∃ r, rowHtml (exBrowser exNetList true) c = .ok r := by
    intro c hc
    simp at hc
    subst hc
    exact ⟨_, rfl⟩
  ⟨rfl, hrows,
    match (rendered_rows_follow_list (exBrowser exNetList true) (exPage "PHQ9" "Salud")
      (.obj [("ok", .bool true), ("results", .arr [exItem])]) [exItem] ["<td>stale</td>"]
      rfl rfl rfl hrows).1 with
    | ⟨rows, h1, h2, _⟩ => ⟨rows, h1, h2⟩⟩

/-- C3 as first stated fails: a response whose `results` is the list `[null]`
leaves the present table body with no row at all, since reading `c.codigo` of
`null` throws before the first row is appended. -/
theorem render_null_row_counterexample :
    (api (exBrowser exNetNull true) API_LIST [] (exPage "PHQ9" "Salud")).1
      = .ok (.obj [("ok", .bool true), ("results", .arr [.null])]) ∧
    getPropOpt (.obj [("ok", .bool true), ("results", .arr [.null])] : JVal (Option Nat)) "results"
      = .arr [.null] ∧
    (exPage "PHQ9" "Salud").tbody = some ["<td>stale</td>"] ∧
    (loadCuestionarios (exBrowser exNetNull true) (exPage "PHQ9" "Salud")).2.tbody = some [] ∧
    ([] : List String).length ≠ [(JVal.null : JVal (Option Nat))].length :=
  ⟨rfl, rfl, rfl, rfl, by decide⟩

/-- C5 at a form whose code is three spaces: the guard `!f.codigo` lets it
through, `trim` then empties it, and the first event of the save handler is a
POST to `API_LIST` whose payload has the empty string as `codigo`. -/
theorem save_sends_blank_codigo (B : Browser Num) :
    (saveHandler B (formPage "   " "Salud")).2.trace.head?
      = some (Event.fetch API_LIST (buildOpts B ""
          [("method", .str "POST"),
           ("json", .obj [("codigo", .str ""), ("nombre", .str "Salud"),
              ("version", .str "1.0"), ("estado", .str "draft"), ("descripcion", .str ""),
              ("activo", .bool false), ("algoritmo", .str "SUM")])])) := by
  have hrun : saveHandler B (formPage "   " "Salud")
      = tryAlert (andThen (api B API_LIST
          [("method", .str "POST"),
           ("json", .obj [("codigo", .str ""), ("nombre", .str "Salud"),
              ("version", .str "1.0"), ("estado", .str "draft"), ("descripcion", .str ""),
              ("activo", .bool false), ("algoritmo", .str "SUM")])])
          (fun _ => andThen (closeDialog B) (fun _ => loadCuestionarios B)))
        (formPage "   " "Salud") := rfl
  rw [hrun]
  simp only [tryAlert, andThen, api]
  cases apiFinish B (B.net (formPage "   " "Salud" : St Num).trace.length API_LIST
      (buildOpts B (formPage "   " "Salud" : St Num).cookie
        [("method", .str "POST"),
         ("json", .obj [("codigo", .str ""), ("nombre", .str "Salud"),
            ("version", .str "1.0"), ("estado", .str "draft"), ("descripcion", .str ""),
            ("activo", .bool false), ("algoritmo", .str "SUM")])])) with
  | error e => rfl
  | ok out => rfl

/-- The guard of the save handler: when the form gives no code or no name
(a missing or empty value), the handler only shows the alert; it makes no
request and leaves the dialog, the list and the table as they were. -/
theorem save_guard_blocks_empty (B : Browser Num) (st : St Num) (form : List Control)
    (hform : st.form = some form)
    (hempty : strTruthy (fromEntries (formData form) "codigo") = false ∨
      strTruthy (fromEntries (formData form) "nombre") = false) :
    saveHandler B st
      = (.ok (), { st with trace := st.trace ++ [Event.alert requiredText] }) := by
  unfold saveHandler
  rcases hempty with h | h <;> simp [hform, h]

end Contract

end Tamizaje
